import Mathlib

/-!
Shallow embedding of the `errdetails` Go package (ClaudiaJ/errdetails).

The package enriches Go errors with gRPC status codes and structured
`google.rpc` detail payloads, serializes such an error chain to a JSON
Status envelope (`ToJSON`, src/http.go), and reconstructs a chain from an
envelope (`FromJSON`, src/http.go).

Modelling conventions:
* Go error values become the inductive `GoError`; each wrapper struct of
  src/errors.go is one constructor holding its payload and its wrapped
  `error` field (the parent link used by `Unwrap`).
* `codes.Code` (a uint32) is modelled as `Nat`; `time.Duration` (int64
  nanoseconds) as `Int`.  `durationpb.New`/`AsDuration` round-trip exactly
  for the durations involved, so the delay is carried verbatim.
* The JSON / protobuf-Any byte codec is modelled as the identity on the
  decoded `Envelope`: `protojson.Marshal`/`Unmarshal` and
  `anypb.New`/`UnmarshalNew` round-trip every well-formed message, and all
  stated properties concern envelope content, not the byte syntax.
* Go `errors.Is` checks, at each unwrap level, pointer identity with the
  target and then the layer's own `Is` method.  Pointer identity between
  distinct allocations is always false; the only targets appearing in the
  package's contract are the `*errCodeError` sentinels, for which the
  `Is` method (code comparison) subsumes the identity check.  `errorsIs`
  therefore models the method dispatch and omits pointer identity.
-/

namespace Errdetails

/-- HelpLink item of a `google.rpc.Help` payload (url + description),
from `errdetails.Help_Link`. -/
structure HelpLink where
  url : String
  description : String
  deriving DecidableEq

/-- Field violation item of a `google.rpc.BadRequest` payload,
from `errdetails.BadRequest_FieldViolation`. -/
structure FieldViolation where
  field : String
  description : String
  deriving DecidableEq

/-- Precondition violation item of a `google.rpc.PreconditionFailure`
payload, from `errdetails.PreconditionFailure_Violation`. -/
structure PreconditionViolation where
  typ : String
  subject : String
  description : String
  deriving DecidableEq

/-- Quota violation item of a `google.rpc.QuotaFailure` payload,
from `errdetails.QuotaFailure_Violation`. -/
structure QuotaViolation where
  subject : String
  description : String
  deriving DecidableEq

/-- The `google.rpc.DebugInfo` payload. -/
structure DebugInfo where
  stackEntries : List String
  detail : String
  deriving DecidableEq

/-- The `google.rpc.ErrorInfo` payload; the metadata map is modelled as an
association list. -/
structure ErrorInfo where
  reason : String
  domain : String
  metadata : List (String × String)
  deriving DecidableEq

/-- The `google.rpc.LocalizedMessage` payload. -/
structure LocalizedMessage where
  locale : String
  message : String
  deriving DecidableEq

/-- The `google.rpc.RequestInfo` payload. -/
structure RequestInfo where
  requestId : String
  servingData : String
  deriving DecidableEq

/-- The `google.rpc.ResourceInfo` payload. -/
structure ResourceInfo where
  resourceType : String
  resourceName : String
  owner : String
  description : String
  deriving DecidableEq

/-- A decoded protobuf detail payload, as produced by `anypb.UnmarshalNew`
inside `FromJSON` and consumed by `anypb.New` inside `ToJSON`.  The ten
built-in constructors are the `google.rpc` errdetails messages dispatched
by `FromJSON`'s type switch; `other` stands for any registered but
non-built-in message, identified by its type URL, with its remaining
content abstracted to a string. -/
inductive ProtoMsg where
  | badRequest (fieldViolations : List FieldViolation)
  | debugInfo (d : DebugInfo)
  | errorInfo (d : ErrorInfo)
  | help (links : List HelpLink)
  | localizedMessage (d : LocalizedMessage)
  | preconditionFailure (violations : List PreconditionViolation)
  | quotaFailure (violations : List QuotaViolation)
  | requestInfo (d : RequestInfo)
  | resourceInfo (d : ResourceInfo)
  | retryInfo (retryDelay : Int)
  | other (typeUrl : String) (payload : String)
  deriving DecidableEq

/-- A Go error value of the package.  Constructors mirror the wrapper
structs of src/errors.go and src/http.go, each holding its detail payload
and its embedded `error` (the parent link returned by `Unwrap`):
`base` is a plain `errors.New` value, `codeError` is `errCodeError`,
`arbitrary` is `arbitraryError` (src/http.go), and `ext` stands for a
caller-defined `Details` wrapper produced by a `DetailsMapper`, carrying
its proto payload and a distinguishing tag. -/
inductive GoError where
  | base (msg : String)
  | codeError (code : Nat) (e : GoError)
  | badRequest (fieldViolations : List FieldViolation) (e : GoError)
  | helpLink (links : List HelpLink) (e : GoError)
  | debugInfo (d : DebugInfo) (e : GoError)
  | info (d : ErrorInfo) (e : GoError)
  | localized (d : LocalizedMessage) (e : GoError)
  | preconditionFailed (violations : List PreconditionViolation) (e : GoError)
  | quotaFailure (violations : List QuotaViolation) (e : GoError)
  | requestInfo (d : RequestInfo) (e : GoError)
  | resourceInfo (d : ResourceInfo) (e : GoError)
  | retryInfo (retryDelay : Int) (e : GoError)
  | arbitrary (msg : ProtoMsg) (e : GoError)
  | ext (tag : String) (msg : ProtoMsg) (e : GoError)
  deriving DecidableEq

/-- Numeric value of `codes.OK`. -/
def codes.OK : Nat := 0

/-- Numeric value of `codes.Canceled`. -/
def codes.Canceled : Nat := 1

/-- Numeric value of `codes.Unknown`. -/
def codes.Unknown : Nat := 2

/-- Numeric value of `codes.InvalidArgument`. -/
def codes.InvalidArgument : Nat := 3

/-- Numeric value of `codes.DeadlineExceeded`. -/
def codes.DeadlineExceeded : Nat := 4

/-- Numeric value of `codes.NotFound`. -/
def codes.NotFound : Nat := 5

/-- Numeric value of `codes.AlreadyExists`. -/
def codes.AlreadyExists : Nat := 6

/-- Numeric value of `codes.PermissionDenied`. -/
def codes.PermissionDenied : Nat := 7

/-- Numeric value of `codes.ResourceExhausted`. -/
def codes.ResourceExhausted : Nat := 8

/-- Numeric value of `codes.FailedPrecondition`. -/
def codes.FailedPrecondition : Nat := 9

/-- Numeric value of `codes.Aborted`. -/
def codes.Aborted : Nat := 10

/-- Numeric value of `codes.OutOfRange`. -/
def codes.OutOfRange : Nat := 11

/-- Numeric value of `codes.Unimplemented`. -/
def codes.Unimplemented : Nat := 12

/-- Numeric value of `codes.Internal`. -/
def codes.Internal : Nat := 13

/-- Numeric value of `codes.Unavailable`. -/
def codes.Unavailable : Nat := 14

/-- Numeric value of `codes.DataLoss`. -/
def codes.DataLoss : Nat := 15

/-- Numeric value of `codes.Unauthenticated`. -/
def codes.Unauthenticated : Nat := 16

/-- Display name of a status code, from `codes.Code.String()` of
grpc-go: the seventeen canonical names, and `Code(n)` for any other
numeric value. -/
def codeString (c : Nat) : String :=
  if c = 0 then "OK"
  else if c = 1 then "Canceled"
  else if c = 2 then "Unknown"
  else if c = 3 then "InvalidArgument"
  else if c = 4 then "DeadlineExceeded"
  else if c = 5 then "NotFound"
  else if c = 6 then "AlreadyExists"
  else if c = 7 then "PermissionDenied"
  else if c = 8 then "ResourceExhausted"
  else if c = 9 then "FailedPrecondition"
  else if c = 10 then "Aborted"
  else if c = 11 then "OutOfRange"
  else if c = 12 then "Unimplemented"
  else if c = 13 then "Internal"
  else if c = 14 then "Unavailable"
  else if c = 15 then "DataLoss"
  else if c = 16 then "Unauthenticated"
  else "Code(" ++ toString c ++ ")"

/-- The fixed unexported placeholder cause of the package sentinels:
`var errUnknown = errors.New("unknown error")` (src/errors.go). -/
def errUnknown : GoError := .base "unknown error"

/-- Sentinel `ErrCanceled` of src/errors.go. -/
def ErrCanceled : GoError := .codeError codes.Canceled errUnknown

/-- Sentinel `ErrUnknown` of src/errors.go. -/
def ErrUnknown : GoError := .codeError codes.Unknown errUnknown

/-- Sentinel `ErrInvalidArgument` of src/errors.go. -/
def ErrInvalidArgument : GoError := .codeError codes.InvalidArgument errUnknown

/-- Sentinel `ErrDeadlineExceeded` of src/errors.go. -/
def ErrDeadlineExceeded : GoError := .codeError codes.DeadlineExceeded errUnknown

/-- Sentinel `ErrNotFound` of src/errors.go. -/
def ErrNotFound : GoError := .codeError codes.NotFound errUnknown

/-- Sentinel `ErrAlreadyExists` of src/errors.go. -/
def ErrAlreadyExists : GoError := .codeError codes.AlreadyExists errUnknown

/-- Sentinel `ErrPermissionDenied` of src/errors.go. -/
def ErrPermissionDenied : GoError := .codeError codes.PermissionDenied errUnknown

/-- Sentinel `ErrResourceExhausted` of src/errors.go. -/
def ErrResourceExhausted : GoError := .codeError codes.ResourceExhausted errUnknown

/-- Sentinel `ErrFailedPrecondition` of src/errors.go. -/
def ErrFailedPrecondition : GoError := .codeError codes.FailedPrecondition errUnknown

/-- Sentinel `ErrAborted` of src/errors.go. -/
def ErrAborted : GoError := .codeError codes.Aborted errUnknown

/-- Sentinel `ErrOutOfRange` of src/errors.go. -/
def ErrOutOfRange : GoError := .codeError codes.OutOfRange errUnknown

/-- Sentinel `ErrUnimplemented` of src/errors.go. -/
def ErrUnimplemented : GoError := .codeError codes.Unimplemented errUnknown

/-- Sentinel `ErrInternal` of src/errors.go. -/
def ErrInternal : GoError := .codeError codes.Internal errUnknown

/-- Sentinel `ErrUnavailable` of src/errors.go. -/
def ErrUnavailable : GoError := .codeError codes.Unavailable errUnknown

/-- Sentinel `ErrDataLoss` of src/errors.go. -/
def ErrDataLoss : GoError := .codeError codes.DataLoss errUnknown

/-- Sentinel `ErrUnauthenticated` of src/errors.go. -/
def ErrUnauthenticated : GoError := .codeError codes.Unauthenticated errUnknown

/-- The sentinel chain shape for a given code: an `errCodeError` whose
code is `c` and whose cause is the fixed placeholder `errUnknown`.  Every
exported sentinel of src/errors.go is `sentinelFor` of its code. -/
def sentinelFor (c : Nat) : GoError := .codeError c errUnknown

/-- The exported sentinel list of src/errors.go lines 21-38, in source
order. -/
def packageSentinels : List GoError :=
  [ErrCanceled, ErrUnknown, ErrInvalidArgument, ErrDeadlineExceeded,
   ErrNotFound, ErrAlreadyExists, ErrPermissionDenied, ErrResourceExhausted,
   ErrFailedPrecondition, ErrAborted, ErrOutOfRange, ErrUnimplemented,
   ErrInternal, ErrUnavailable, ErrDataLoss, ErrUnauthenticated]

/-- The closed set of canonical `codes.Code` values: the seventeen codes
0 (`OK`) through 16 (`Unauthenticated`), including 2 (`Unknown`). -/
def statusCodeSet : List Nat := List.range 17

/-- The `errBadRequest` wrapper struct of src/errors.go: an embedded
parent `error` and an embedded `*errdetails.BadRequest` whose field is
the violation list. -/
structure ErrBadRequest where
  parent : GoError
  fieldViolations : List FieldViolation
  deriving DecidableEq

/-- View of an `errBadRequest` as the error-chain layer it is. -/
def ErrBadRequest.toError (e : ErrBadRequest) : GoError :=
  .badRequest e.fieldViolations e.parent

/-- The `errBadRequest.WithViolation` mutator (src/errors.go lines
172-190): appends the supplied violations to the layer's existing
`FieldViolations` list and returns the same layer.  Items are already in
the native fragment shape in this model, so the per-item re-materialization
of the source is the identity. -/
def ErrBadRequest.withViolation (e : ErrBadRequest) (violations : List FieldViolation) : ErrBadRequest :=
  { e with fieldViolations := e.fieldViolations ++ violations }

/-- The `errBadRequest.GetViolations` accessor (src/errors.go lines
192-198): returns the layer's violation list in order. -/
def ErrBadRequest.getViolations (e : ErrBadRequest) : List FieldViolation :=
  e.fieldViolations

/-- `WithBadRequest` of src/wrappers.go: builds an `errBadRequest` layer
over `e` with an empty violation list and appends the supplied violations
via `WithViolation`. -/
def withBadRequest (e : GoError) (violations : List FieldViolation) : ErrBadRequest :=
  ErrBadRequest.withViolation { parent := e, fieldViolations := [] } violations

/-- A `Details` wrapper of src/wrappers.go: each constructor is one of the
package's detail wrapper factories, holding the payload it will attach
when wrapping an error. -/
inductive Detail where
  | code (c : Nat)
  | badRequest (fieldViolations : List FieldViolation)
  | help (links : List HelpLink)
  | debug (d : DebugInfo)
  | cause (d : ErrorInfo)
  | localizedMessage (d : LocalizedMessage)
  | preconditionFailure (violations : List PreconditionViolation)
  | quotaFailure (violations : List QuotaViolation)
  | requestInfo (d : RequestInfo)
  | resource (d : ResourceInfo)
  | retryDelay (delay : Int)
  deriving DecidableEq

/-- `Details.Wrap` for each package wrapper (src/wrappers.go): produces a
new outermost layer over `e` carrying the wrapper's payload.  The
multi-item kinds build a fresh layer with an empty list and append, which
yields exactly the supplied items. -/
def Detail.wrap : Detail → GoError → GoError
  | .code c, e => .codeError c e
  | .badRequest vs, e => (withBadRequest e vs).toError
  | .help links, e => .helpLink links e
  | .debug d, e => .debugInfo d e
  | .cause d, e => .info d e
  | .localizedMessage d, e => .localized d e
  | .preconditionFailure vs, e => .preconditionFailed vs e
  | .quotaFailure vs, e => .quotaFailure vs e
  | .requestInfo d, e => .requestInfo d e
  | .resource d, e => .resourceInfo d e
  | .retryDelay d, e => .retryInfo d e

/-- `WithDetails` of src/wrappers.go: folds the wrappers over the error
left to right, so the last wrapper in the list becomes the outermost
layer. -/
def WithDetails (e : GoError) (ds : List Detail) : GoError :=
  ds.foldl (fun acc d => d.wrap acc) e

/-- `New` of src/errors.go: an `errCodeError` over `errors.New(msg)`,
then `WithDetails`. -/
def New (code : Nat) (msg : String) (ds : List Detail) : GoError :=
  WithDetails (.codeError code (.base msg)) ds

/-- `errors.Unwrap`: every wrapper returns its embedded `error`; a plain
`errors.New` value has no `Unwrap`. -/
def goUnwrap : GoError → Option GoError
  | .base _ => none
  | .codeError _ e => some e
  | .badRequest _ e => some e
  | .helpLink _ e => some e
  | .debugInfo _ e => some e
  | .info _ e => some e
  | .localized _ e => some e
  | .preconditionFailed _ e => some e
  | .quotaFailure _ e => some e
  | .requestInfo _ e => some e
  | .resourceInfo _ e => some e
  | .retryInfo _ e => some e
  | .arbitrary _ e => some e
  | .ext _ _ e => some e

/-- `Error()` strings: `errCodeError.Error` prefixes the code name
(src/errors.go lines 58-61); every other wrapper promotes the embedded
error's `Error` method unchanged. -/
def errString : GoError → String
  | .base m => m
  | .codeError c e => codeString c ++ ": " ++ errString e
  | .badRequest _ e => errString e
  | .helpLink _ e => errString e
  | .debugInfo _ e => errString e
  | .info _ e => errString e
  | .localized _ e => errString e
  | .preconditionFailed _ e => errString e
  | .quotaFailure _ e => errString e
  | .requestInfo _ e => errString e
  | .resourceInfo _ e => errString e
  | .retryInfo _ e => errString e
  | .arbitrary _ e => errString e
  | .ext _ _ e => errString e

/-- `errCodeError.Is` (src/errors.go lines 63-71): true exactly when the
target is itself an `errCodeError` with the same code.  The method reads
only the receiver's code, never its message or wrapped cause. -/
def codeErrorIs (c : Nat) (target : GoError) : Bool :=
  match target with
  | .codeError cp _ => c == cp
  | _ => false

/-- `arbitraryError.Is` (src/http.go lines 182-190): compares pointer
identity of the two proto message values.  Across distinct allocations —
the only situation arising in the package's contract — that comparison is
false. -/
def arbitraryIs (_ : ProtoMsg) (_ : GoError) : Bool := false

/-- Go `errors.Is`: walk the unwrap chain of the first argument; at each
layer consult the layer's `Is` method (only `errCodeError` and
`arbitraryError` declare one).  Pointer-identity hits between distinct
allocations are always false and are omitted; for `errCodeError` targets
the `Is` method subsumes identity. -/
def errorsIs : GoError → GoError → Bool
  | .base _, _ => false
  | .codeError c e, t => codeErrorIs c t || errorsIs e t
  | .badRequest _ e, t => errorsIs e t
  | .helpLink _ e, t => errorsIs e t
  | .debugInfo _ e, t => errorsIs e t
  | .info _ e, t => errorsIs e t
  | .localized _ e, t => errorsIs e t
  | .preconditionFailed _ e, t => errorsIs e t
  | .quotaFailure _ e, t => errorsIs e t
  | .requestInfo _ e, t => errorsIs e t
  | .resourceInfo _ e, t => errorsIs e t
  | .retryInfo _ e, t => errorsIs e t
  | .arbitrary p e, t => arbitraryIs p t || errorsIs e t
  | .ext _ _ e, t => errorsIs e t

/-- `errors.As` against the `RetriableError` interface fused with
`GetRetryDelay` (src/errors.go lines 380-408): the first (outermost)
`errRetryInfo` layer's stored delay, if any layer of the chain is one. -/
def asRetriableDelay : GoError → Option Int
  | .base _ => none
  | .codeError _ e => asRetriableDelay e
  | .badRequest _ e => asRetriableDelay e
  | .helpLink _ e => asRetriableDelay e
  | .debugInfo _ e => asRetriableDelay e
  | .info _ e => asRetriableDelay e
  | .localized _ e => asRetriableDelay e
  | .preconditionFailed _ e => asRetriableDelay e
  | .quotaFailure _ e => asRetriableDelay e
  | .requestInfo _ e => asRetriableDelay e
  | .resourceInfo _ e => asRetriableDelay e
  | .retryInfo d _ => some d
  | .arbitrary _ e => asRetriableDelay e
  | .ext _ _ e => asRetriableDelay e

/-- `errors.As` against the `FailedQuotaError` interface fused with
`GetViolations` (src/errors.go lines 310-356): the first (outermost)
`errQuotaFailure` layer's violation list, if any layer of the chain is
one. -/
def asQuotaViolations : GoError → Option (List QuotaViolation)
  | .base _ => none
  | .codeError _ e => asQuotaViolations e
  | .badRequest _ e => asQuotaViolations e
  | .helpLink _ e => asQuotaViolations e
  | .debugInfo _ e => asQuotaViolations e
  | .info _ e => asQuotaViolations e
  | .localized _ e => asQuotaViolations e
  | .preconditionFailed _ e => asQuotaViolations e
  | .quotaFailure vs _ => some vs
  | .requestInfo _ e => asQuotaViolations e
  | .resourceInfo _ e => asQuotaViolations e
  | .retryInfo _ e => asQuotaViolations e
  | .arbitrary _ e => asQuotaViolations e
  | .ext _ _ e => asQuotaViolations e

/-- The detail-collection walk of `ToJSON` (src/http.go lines 88-101):
starting at the original error, outermost first, every layer that is a
`protoreflect.ProtoMessage` contributes its payload.  The detail wrapper
structs promote the embedded proto message, `arbitraryError` embeds one,
and a caller-defined wrapper is modelled as embedding its payload; plain
errors and `errCodeError` are not proto messages. -/
def detailsOf : GoError → List ProtoMsg
  | .base _ => []
  | .codeError _ e => detailsOf e
  | .badRequest vs e => .badRequest vs :: detailsOf e
  | .helpLink links e => .help links :: detailsOf e
  | .debugInfo d e => .debugInfo d :: detailsOf e
  | .info d e => .errorInfo d :: detailsOf e
  | .localized d e => .localizedMessage d :: detailsOf e
  | .preconditionFailed vs e => .preconditionFailure vs :: detailsOf e
  | .quotaFailure vs e => .quotaFailure vs :: detailsOf e
  | .requestInfo d e => .requestInfo d :: detailsOf e
  | .resourceInfo d e => .resourceInfo d :: detailsOf e
  | .retryInfo d e => .retryInfo d :: detailsOf e
  | .arbitrary p e => p :: detailsOf e
  | .ext _ p e => p :: detailsOf e

/-- `errors.As(from, &toStatus)` against the `statusError` interface
(src/http.go lines 82-83): the first (outermost) layer implementing
`GRPCStatus` — only `errCodeError` does — returned as its code and its
wrapped cause. -/
def findStatusError : GoError → Option (Nat × GoError)
  | .base _ => none
  | .codeError c e => some (c, e)
  | .badRequest _ e => findStatusError e
  | .helpLink _ e => findStatusError e
  | .debugInfo _ e => findStatusError e
  | .info _ e => findStatusError e
  | .localized _ e => findStatusError e
  | .preconditionFailed _ e => findStatusError e
  | .quotaFailure _ e => findStatusError e
  | .requestInfo _ e => findStatusError e
  | .resourceInfo _ e => findStatusError e
  | .retryInfo _ e => findStatusError e
  | .arbitrary _ e => findStatusError e
  | .ext _ _ e => findStatusError e

/-- The decoded `google.rpc.Status` JSON envelope: code, message and the
ordered detail list. -/
structure Envelope where
  code : Nat
  message : String
  details : List ProtoMsg
  deriving DecidableEq

/-- `ToJSON` (src/http.go lines 80-104).  The error is converted to a
Status one way or another: the first layer with `GRPCStatus` supplies the
code and, via `errCodeError.Error`, the `"<CodeName>: <cause>"` message;
if no layer carries a status code, a synthesized `errCodeError` with code
`Unknown` wrapping the whole original error is used instead.  The detail
walk always starts at the original error, which is itself never
modified.  The final `protojson.Marshal` is the identity in this
envelope-level model. -/
def ToJSON (e : GoError) : Envelope :=
  let toStatus := (findStatusError e).getD (codes.Unknown, e)
  { code := toStatus.1
    message := codeString toStatus.1 ++ ": " ++ errString toStatus.2
    details := detailsOf e }

/-- A `DetailsMapper` (src/http.go lines 74-76): maps a decoded payload
to a `Details` wrapper, or to nothing. -/
structure DetailsMapper where
  map : ProtoMsg → Option (GoError → GoError)

/-- The extension-mapper stage of `FromJSON` (src/http.go lines
135-139): every supplied mapper is consulted in order; each one whose
`Map` returns a non-nil wrapper wraps the current error. -/
def applyMappers (mappers : List DetailsMapper) (p : ProtoMsg) (sterr : GoError) : GoError :=
  mappers.foldl
    (fun acc mp =>
      match mp.map p with
      | some w => w acc
      | none => acc)
    sterr

/-- The built-in type switch of `FromJSON` (src/http.go lines 141-166):
a payload matching a built-in errdetails kind becomes that kind's wrapper
layer over the current error; any other payload is preserved by wrapping
the current error in an `arbitraryError` carrying it. -/
def dispatchBuiltin (sterr : GoError) : ProtoMsg → GoError
  | .badRequest vs => .badRequest vs sterr
  | .debugInfo d => .debugInfo d sterr
  | .errorInfo d => .info d sterr
  | .help links => .helpLink links sterr
  | .localizedMessage d => .localized d sterr
  | .preconditionFailure vs => .preconditionFailed vs sterr
  | .quotaFailure vs => .quotaFailure vs sterr
  | .requestInfo d => .requestInfo d sterr
  | .resourceInfo d => .resourceInfo d sterr
  | .retryInfo d => .retryInfo d sterr
  | .other t p => .arbitrary (.other t p) sterr

/-- One iteration of `FromJSON`'s detail loop: the mapper stage followed
unconditionally by the built-in dispatch. -/
def replayDetail (mappers : List DetailsMapper) (sterr : GoError) (p : ProtoMsg) : GoError :=
  dispatchBuiltin (applyMappers mappers p sterr) p

/-- `FromJSON` (src/http.go lines 115-170) after a successful decode of
the envelope: the base layer is `New(code, message)` with no details, and
each envelope detail entry, in list order, is replayed through the mapper
stage and the built-in dispatch, each replay producing a new outermost
layer. -/
def FromJSON (env : Envelope) (mappers : List DetailsMapper) : GoError :=
  env.details.foldl (replayDetail mappers) (New env.code env.message [])

/-- Whether the chain contains an `arbitraryError` layer carrying exactly
the given payload. -/
def hasArbitrary (p : ProtoMsg) : GoError → Bool
  | .base _ => false
  | .codeError _ e => hasArbitrary p e
  | .badRequest _ e => hasArbitrary p e
  | .helpLink _ e => hasArbitrary p e
  | .debugInfo _ e => hasArbitrary p e
  | .info _ e => hasArbitrary p e
  | .localized _ e => hasArbitrary p e
  | .preconditionFailed _ e => hasArbitrary p e
  | .quotaFailure _ e => hasArbitrary p e
  | .requestInfo _ e => hasArbitrary p e
  | .resourceInfo _ e => hasArbitrary p e
  | .retryInfo _ e => hasArbitrary p e
  | .arbitrary q e => q == p || hasArbitrary p e
  | .ext _ _ e => hasArbitrary p e

/-- The payload a package wrapper attaches, if any: `Code` attaches none,
every other wrapper attaches its proto detail. -/
def Detail.payload : Detail → Option ProtoMsg
  | .code _ => none
  | .badRequest vs => some (.badRequest vs)
  | .help links => some (.help links)
  | .debug d => some (.debugInfo d)
  | .cause d => some (.errorInfo d)
  | .localizedMessage d => some (.localizedMessage d)
  | .preconditionFailure vs => some (.preconditionFailure vs)
  | .quotaFailure vs => some (.quotaFailure vs)
  | .requestInfo d => some (.requestInfo d)
  | .resource d => some (.resourceInfo d)
  | .retryDelay d => some (.retryInfo d)

/-- One minute as a Go `time.Duration` (nanoseconds). -/
def minuteNs : Int := 60000000000

/-- The chain of concrete scenario B (src/http_test.go `TestFromJSON`):
`New(ResourceExhausted, "resend email rate limit exceeded",
RetryDelay(time.Minute), QuotaFailure(...))`. -/
def chainB : GoError :=
  New codes.ResourceExhausted "resend email rate limit exceeded"
    [Detail.retryDelay minuteNs,
     Detail.quotaFailure [{ subject := "auth0|123456789",
                            description := "Rate limit applied for Resend Email" }]]

/-- The chain of concrete scenario A (src/http_test.go `TestHandler`):
`New(InvalidArgument, "test error", Help(...), BadRequest(...))`. -/
def chainA : GoError :=
  New codes.InvalidArgument "test error"
    [Detail.help [{ url := "url2", description := "desc4" },
                  { url := "url1", description := "desc3" }],
     Detail.badRequest [{ field := "field1", description := "desc1" },
                        { field := "field2", description := "desc2" }]]

/-- Concrete extension wrapper used to exercise the mapper stage: a
caller-defined `Details` wrapper around a custom retry payload. -/
def extWrapW : GoError → GoError :=
  fun e => .ext "example.com/CustomRetry" (.retryInfo 5) e

/-- Concrete `DetailsMapper` whose `Map` recognizes exactly the payload
`retryInfo 5` and returns `extWrapW` for it. -/
def mapperW : DetailsMapper :=
  { map := fun p => if p = .retryInfo 5 then some extWrapW else none }

end Errdetails

namespace Errdetails

/-- Wrapping with a package `Details` wrapper contributes exactly the
wrapper's payload (if any) at the front of the serializer's detail
walk. -/
theorem detailsOf_wrap (d : Detail) (e : GoError) :
    detailsOf (d.wrap e) = d.payload.toList ++ detailsOf e := by
  cases d <;>
    simp [Detail.wrap, Detail.payload, detailsOf, withBadRequest,
      ErrBadRequest.withViolation, ErrBadRequest.toError]

/-- The built-in dispatch of `FromJSON` always adds a layer carrying the
replayed payload to the front of the detail walk, for built-in and
non-built-in payloads alike. -/
theorem detailsOf_dispatchBuiltin (e : GoError) (p : ProtoMsg) :
    detailsOf (dispatchBuiltin e p) = p :: detailsOf e := by
  cases p <;> rfl

/-- Replaying a detail list with no extension mappers reverses it in the
detail walk of the result. -/
theorem detailsOf_replayFold_nil (l : List ProtoMsg) (e : GoError) :
    detailsOf (l.foldl (replayDetail []) e) = l.reverse ++ detailsOf e := by
  induction l generalizing e with
  | nil => simp
  | cons x xs ih =>
      simp [List.foldl_cons, ih, replayDetail, applyMappers, detailsOf_dispatchBuiltin]

/-- With no extension mappers, the detail walk of a deserialized chain is
the reverse of the envelope's detail list. -/
theorem detailsOf_fromJSON_nil (env : Envelope) :
    detailsOf (FromJSON env []) = env.details.reverse := by
  simpa [FromJSON, New, WithDetails, detailsOf]
    using detailsOf_replayFold_nil env.details (New env.code env.message [])

/-- The detail list of a serialized envelope is the detail walk of the
original chain. -/
theorem toJSON_details (e : GoError) : (ToJSON e).details = detailsOf e := rfl

/-- Wrapping with any package `Details` wrapper preserves a positive
`errors.Is` verdict of the wrapped error. -/
theorem errorsIs_wrap (d : Detail) (e t : GoError) (h : errorsIs e t = true) :
    errorsIs (d.wrap e) t = true := by
  cases d <;>
    simp [Detail.wrap, errorsIs, withBadRequest, ErrBadRequest.withViolation,
      ErrBadRequest.toError, h]

/-- `WithDetails` preserves a positive `errors.Is` verdict of the wrapped
error. -/
theorem errorsIs_withDetails (ds : List Detail) (e t : GoError) (h : errorsIs e t = true) :
    errorsIs (WithDetails e ds) t = true := by
  induction ds generalizing e with
  | nil => exact h
  | cons d ds ih => exact ih (d.wrap e) (errorsIs_wrap d e t h)

/-- The built-in dispatch preserves the presence of an `arbitraryError`
layer in the chain it wraps. -/
theorem hasArbitrary_dispatch_mono (p : ProtoMsg) (e : GoError) (q : ProtoMsg)
    (h : hasArbitrary p e = true) :
    hasArbitrary p (dispatchBuiltin e q) = true := by
  cases q <;> simp [dispatchBuiltin, hasArbitrary, h]

/-- Replaying further details with no extension mappers preserves the
presence of an `arbitraryError` layer. -/
theorem hasArbitrary_foldl_nil (p : ProtoMsg) (l : List ProtoMsg) (e : GoError)
    (h : hasArbitrary p e = true) :
    hasArbitrary p (l.foldl (replayDetail []) e) = true := by
  induction l generalizing e with
  | nil => exact h
  | cons x xs ih => exact ih _ (hasArbitrary_dispatch_mono p e x h)

/-- Dispatching a non-built-in payload produces an `arbitraryError` layer
carrying exactly that payload. -/
theorem hasArbitrary_self (t s : String) (e : GoError) :
    hasArbitrary (ProtoMsg.other t s) (dispatchBuiltin e (ProtoMsg.other t s)) = true := by
  simp [dispatchBuiltin, hasArbitrary]

end Errdetails

namespace Errdetails

/-- C1: serializing the scenario-B chain — `New(ResourceExhausted,
"resend email rate limit exceeded", RetryDelay(one minute),
QuotaFailure(subject "auth0|123456789", description "Rate limit applied
for Resend Email"))` — with `ToJSON` and deserializing the envelope with
`FromJSON` and no extension mappers yields an error that `errors.Is`
matches against the `ErrResourceExhausted` sentinel, exposes a
`RetriableError` capability whose retry delay is exactly one minute, and
exposes a `FailedQuotaError` capability whose first violation has exactly
that subject and description. -/
theorem scenarioB_roundtrip :
    errorsIs (FromJSON (ToJSON chainB) []) ErrResourceExhausted = true
    ∧ asRetriableDelay (FromJSON (ToJSON chainB) []) = some minuteNs
    ∧ ((asQuotaViolations (FromJSON (ToJSON chainB) [])).getD []).head?
        = some { subject := "auth0|123456789",
                 description := "Rate limit applied for Resend Email" } := by
  decide

/-- C2: serializing the scenario-A chain — `New(InvalidArgument, "test
error", Help(url2/desc4, url1/desc3), BadRequest(field1/desc1,
field2/desc2))` — produces an envelope with code 3, message
`"InvalidArgument: test error"`, and detail list exactly `[BadRequest,
Help]`, the outermost (last-applied) detail first, each kind's items in
insertion order. -/
theorem scenarioA_envelope :
    ToJSON chainA =
      { code := 3
        message := "InvalidArgument: test error"
        details := [ProtoMsg.badRequest [{ field := "field1", description := "desc1" },
                                         { field := "field2", description := "desc2" }],
                    ProtoMsg.help [{ url := "url2", description := "desc4" },
                                   { url := "url1", description := "desc3" }]] } := by
  decide

/-- C3: for every chain whose detail layers in outer-to-inner order are
`[D1, D2, D3]` (built over a code layer), the serializer walk meets the
payloads as `[p1, p2, p3]`, and a full `ToJSON` then `FromJSON` round
trip (no extension mappers) yields a chain whose outer-to-inner
capability walk meets them as `[p3, p2, p1]` — multi-detail ordering is
reversed, because each replayed detail becomes the new outermost
layer. -/
theorem roundtrip_reverses_detail_order
    (c : Nat) (m : String) (d1 d2 d3 : Detail) (p1 p2 p3 : ProtoMsg)
    (h1 : d1.payload = some p1) (h2 : d2.payload = some p2) (h3 : d3.payload = some p3) :
    detailsOf (New c m [d3, d2, d1]) = [p1, p2, p3]
    ∧ detailsOf (FromJSON (ToJSON (New c m [d3, d2, d1])) []) = [p3, p2, p1] := by
  have hd : detailsOf (New c m [d3, d2, d1]) = [p1, p2, p3] := by
    simp [New, WithDetails, List.foldl_cons, List.foldl_nil, detailsOf_wrap,
      h1, h2, h3, detailsOf]
  refine ⟨hd, ?_⟩
  rw [detailsOf_fromJSON_nil, toJSON_details, hd]
  rfl

/-- Witness for C3 at a concrete chain with Help, RetryInfo and
QuotaFailure detail layers. -/
theorem roundtrip_reverses_detail_order_witness :
    detailsOf (New 8 "m" [Detail.quotaFailure [], Detail.retryDelay 60, Detail.help []])
      = [ProtoMsg.help [], ProtoMsg.retryInfo 60, ProtoMsg.quotaFailure []]
    ∧ detailsOf (FromJSON (ToJSON (New 8 "m"
          [Detail.quotaFailure [], Detail.retryDelay 60, Detail.help []])) [])
      = [ProtoMsg.quotaFailure [], ProtoMsg.retryInfo 60, ProtoMsg.help []] :=
  roundtrip_reverses_detail_order 8 "m"
    (Detail.help []) (Detail.retryDelay 60) (Detail.quotaFailure [])
    (ProtoMsg.help []) (ProtoMsg.retryInfo 60) (ProtoMsg.quotaFailure [])
    rfl rfl rfl

/-- C4: during `FromJSON`, for a detail payload, every supplied
`DetailsMapper` whose `Map` returns a non-nil wrapper wraps the current
error in the order the mappers were supplied (earlier mappers inner,
later mappers outer), and afterwards the built-in dispatch also wraps the
result unconditionally, adding exactly one further layer whose `Unwrap`
returns the mapper-stage result — so a payload matching both an extension
mapper and a built-in kind is wrapped twice, and neither stage suppresses
the other. -/
theorem fromJSON_mapper_and_builtin_both_wrap
    (pre post : List DetailsMapper) (mp : DetailsMapper) (p : ProtoMsg)
    (w : GoError → GoError) (hw : mp.map p = some w) (e : GoError) :
    replayDetail (pre ++ mp :: post) e p
      = dispatchBuiltin (applyMappers post p (w (applyMappers pre p e))) p
    ∧ (∀ x : GoError, goUnwrap (dispatchBuiltin x p) = some x) := by
  constructor
  · simp [replayDetail, applyMappers, List.foldl_append, List.foldl_cons, hw]
  · intro x
    cases p <;> rfl

/-- Witness for C4: a mapper recognizing the built-in payload
`retryInfo 5` wraps first, and the built-in dispatch wraps again on top,
yielding the two layers. -/
theorem fromJSON_mapper_and_builtin_both_wrap_witness :
    replayDetail [mapperW] (GoError.base "x") (ProtoMsg.retryInfo 5)
      = GoError.retryInfo 5
          (GoError.ext "example.com/CustomRetry" (ProtoMsg.retryInfo 5) (GoError.base "x")) := by
  have h := fromJSON_mapper_and_builtin_both_wrap [] [] mapperW (ProtoMsg.retryInfo 5)
    extWrapW rfl (GoError.base "x")
  simpa [applyMappers, dispatchBuiltin, extWrapW] using h.1

/-- Counterexample for C5: the claim that a pre-built sentinel exists for
each of the seventeen values of the closed status-code set fails at the
concrete code 0 (`OK`) — src/errors.go exports no sentinel whose code is
0. -/
theorem sentinel_missing_for_ok_code :
    ¬ (∀ c ∈ statusCodeSet, ∃ s ∈ packageSentinels, s = sentinelFor c) := by
  decide

/-- C5 (amended): the closed status-code set has seventeen values, and a
global pre-built sentinel chain exists for exactly the sixteen non-`OK`
values (including `unknown`), each carrying the fixed unexported
placeholder cause `errUnknown`. -/
theorem sentinels_cover_all_but_ok :
    packageSentinels = (statusCodeSet.filter (fun c => c != 0)).map sentinelFor
    ∧ statusCodeSet.length = 17 := by
  decide

/-- C6: for every status code, message and package detail wrappers,
`errors.Is` matches `New(C, m, ...)` against the sentinel for C; and the
`errCodeError.Is` method matches a code layer against a sentinel exactly
when the two codes are equal, independently of the layer's message and of
the sentinel's wrapped cause.  The exported sentinels are exactly the
sentinel shapes of the sixteen non-`OK` codes. -/
theorem new_matches_sentinel_by_code :
    (∀ (c : Nat) (m : String) (ds : List Detail),
        errorsIs (New c m ds) (sentinelFor c) = true)
    ∧ (∀ (c cp : Nat) (e : GoError),
        codeErrorIs c (GoError.codeError cp e) = true ↔ c = cp)
    ∧ packageSentinels = (statusCodeSet.filter (fun c => c != 0)).map sentinelFor := by
  refine ⟨?_, ?_, by decide⟩
  · intro c m ds
    exact errorsIs_withDetails ds _ _ (by simp [errorsIs, codeErrorIs, sentinelFor])
  · intro c cp e
    simp [codeErrorIs]

/-- C7: on a BadRequest layer with initial violation list `vs0`, calling
`WithViolation` with `[v1, v2]` and then with `[v3]` yields
`GetViolations()` equal to `vs0 ++ [v1, v2, v3]` — each mutator call
concatenates to the layer's existing item list in order, with no
reordering, replacement or deduplication; for a freshly built layer
(`vs0 = []`) this is exactly `[v1, v2, v3]`. -/
theorem withViolation_appends_in_order
    (e : GoError) (vs0 : List FieldViolation) (v1 v2 v3 : FieldViolation) :
    (((withBadRequest e vs0).withViolation [v1, v2]).withViolation [v3]).getViolations
      = vs0 ++ [v1, v2, v3] := by
  simp [withBadRequest, ErrBadRequest.withViolation, ErrBadRequest.getViolations]

/-- C8: during `FromJSON` (no extension mappers), a decoded detail
payload whose type matches no built-in kind is not an error:
deserialization continues through the remaining details, the payload is
preserved in an `arbitraryError` catch-all layer carrying the raw decoded
payload, and the full chain is returned with every envelope detail —
including the unrecognized one — still present in the detail walk. -/
theorem unknown_detail_is_preserved
    (c : Nat) (m typeUrl payload : String) (pre post : List ProtoMsg) :
    detailsOf (FromJSON
        { code := c, message := m,
          details := pre ++ ProtoMsg.other typeUrl payload :: post } [])
      = (pre ++ ProtoMsg.other typeUrl payload :: post).reverse
    ∧ hasArbitrary (ProtoMsg.other typeUrl payload)
        (FromJSON
          { code := c, message := m,
            details := pre ++ ProtoMsg.other typeUrl payload :: post } []) = true := by
  constructor
  · exact detailsOf_fromJSON_nil _
  · have key : hasArbitrary (ProtoMsg.other typeUrl payload)
        (replayDetail [] (pre.foldl (replayDetail []) (New c m []))
          (ProtoMsg.other typeUrl payload)) = true :=
      hasArbitrary_self typeUrl payload _
    have h2 := hasArbitrary_foldl_nil (ProtoMsg.other typeUrl payload) post _ key
    simpa [FromJSON, List.foldl_append, List.foldl_cons] using h2

/-- C9: when no layer of the error carries a status code (no layer
satisfies the status capability), `ToJSON` does not fail: the envelope
carries the `unknown` code, its message is the display string of a
synthesized code layer wrapping the original error as its cause, and the
detail list is still the walk of the original, unmodified chain. -/
theorem toJSON_defaults_to_unknown_code
    (e : GoError) (h : findStatusError e = none) :
    ToJSON e = { code := codes.Unknown,
                 message := errString (GoError.codeError codes.Unknown e),
                 details := detailsOf e } := by
  simp [ToJSON, h, errString]

/-- Witness for C9 at the plain error `errors.New("boom")`, which carries
no status code. -/
theorem toJSON_defaults_to_unknown_code_witness :
    findStatusError (GoError.base "boom") = none
    ∧ ToJSON (GoError.base "boom")
        = { code := codes.Unknown,
            message := errString (GoError.codeError codes.Unknown (GoError.base "boom")),
            details := detailsOf (GoError.base "boom") }
    ∧ ToJSON (GoError.base "boom")
        = { code := 2, message := "Unknown: boom", details := [] } :=
  ⟨rfl, toJSON_defaults_to_unknown_code (GoError.base "boom") rfl, by decide⟩

/-- C10: `FromJSON` builds its base layer as `New(code, message)` from an
envelope whose message already carries the code-name prefix added by
`errCodeError.Error` during serialization, so for every chain built with
`New(C, m)` a serialize-then-deserialize round trip yields an error whose
display string is `"<CodeName>: <CodeName>: <m>"`, duplicating the
code-name prefix instead of preserving the message verbatim. -/
theorem roundtrip_duplicates_code_name (c : Nat) (m : String) :
    errString (FromJSON (ToJSON (New c m [])) [])
      = codeString c ++ ": " ++ (codeString c ++ ": " ++ m) := rfl

end Errdetails
